import Mathlib

/-!
Verification of the tour image lifecycle implemented in
`controllers/tourControllerAdvanced.js`: the `resizeTourImages` middleware
(filename generation, concurrent gallery transcoding, body merge), the
`safeJoinInTours` / `safeUnlink` file utilities, and the `updateTour`
handler (before-snapshot read, record-store update, old-file cleanup).

The JavaScript handlers are embedded shallowly:

* request bodies are records of optional fields (`some` models a present
  property, mirroring `Object.prototype.hasOwnProperty`);
* the concurrent gallery fan-out (`Promise.all` over `map`, each task
  pushing its filename when its own transcode finishes) is modelled by an
  explicit completion order, a permutation of the upload indices;
* the image store is an explicit list of paths, a path being a list of
  components; Node's `path.basename` and `path.join` are modelled on that
  representation;
* `fsp.unlink` failures (permission, I/O) are modelled by a set of paths
  whose deletion raises; the handler catches and swallows such errors.
-/

namespace Trips

/-! ### Filename generation (`resizeTourImages`, lines 103-140) -/

/-- Cover filename template (line 108): `tour-<id>-<timestamp>-cover.jpeg`. -/
def coverName (id : String) (now : Nat) : String :=
  "tour-" ++ id ++ "-" ++ toString now ++ "-cover.jpeg"

/-- Gallery filename template (line 130), 1-based index:
`tour-<id>-<timestamp>-<index>.jpeg`. -/
def galleryName (id : String) (now : Nat) (k : Nat) : String :=
  "tour-" ++ id ++ "-" ++ toString now ++ "-" ++ toString k ++ ".jpeg"

/-- The shared stem of all filenames of one request: `tour-<id>-<timestamp>-`. -/
def nameStem (id : String) (now : Nat) : String :=
  "tour-" ++ id ++ "-" ++ toString now ++ "-"

/-- The gallery filenames in upload order: entry `i` (0-based) carries the
1-based index `i + 1`, as in `req.files.images.map((file, i) => ...)`. -/
def galleryNamesInOrder (id : String) (now : Nat) (n : Nat) : List String :=
  (List.range n).map (fun i => galleryName id now (i + 1))

/-- The gallery array as the source actually builds it: inside `Promise.all`
each concurrent task runs `newBody.images.push(filename)` after its own
`sharp(...).toFile` resolves, so the array lists the filenames in completion
order `order` (a permutation of the 0-based upload indices). -/
def galleryPushed (id : String) (now : Nat) (order : List Nat) : List String :=
  order.map (fun i => galleryName id now (i + 1))

/-! ### Request body and uploaded files (`resizeTourImages`, lines 94-151) -/

/-- A JavaScript field value as far as the image logic observes it: a text
field or an array of filename strings. -/
inductive Value
  | str (s : String)
  | strList (l : List String)
deriving DecidableEq

/-- `req.body`: the two image fields (`some` models the property being
present on the object), plus all remaining client-supplied fields, which the
image logic never inspects. -/
structure Body where
  imageCover : Option Value
  images : Option Value
  rest : List (String × Value)
deriving DecidableEq

/-- `req.files`: the uploads per multipart field; `none` models the property
being absent (no file sent under that field name). Buffer contents are
irrelevant to naming and merging, so buffers are `Unit`. -/
structure Files where
  imageCover : Option (List Unit)
  images : Option (List Unit)
deriving DecidableEq

/-- True when no file was uploaded: `req.files` falsy, or both upload fields
absent or empty. -/
def noUploads : Option Files → Bool
  | none => true
  | some f =>
    (match f.imageCover with
     | none => true
     | some [] => true
     | some (_ :: _) => false)
    && (match f.images with
        | none => true
        | some [] => true
        | some (_ :: _) => false)

/-- `resizeTourImages` (lines 94-151). Early return when `req.files` is
falsy or both fields are absent (line 96). Otherwise `newBody.imageCover` is
set when a cover file is present (lines 106-119), `newBody.images` is built
by the concurrent gallery fan-out (lines 122-143) — in completion order
`order` — and `req.body = { ...req.body, ...newBody }` (line 147) lets the
fresh fields override the client's while keeping every other field. -/
def resizeTourImages (id : String) (now : Nat) (body : Body)
    (files : Option Files) (order : List Nat) : Body :=
  match files with
  | none => body
  | some f =>
    if f.imageCover = none ∧ f.images = none then body
    else
      let nbCover : Option String :=
        match f.imageCover with
        | some (_ :: _) => some (coverName id now)
        | _ => none
      let nbImages : Option (List String) :=
        match f.images with
        | some (_ :: _) => some (galleryPushed id now order)
        | _ => none
      { imageCover :=
          match nbCover with
          | some c => some (Value.str c)
          | none => body.imageCover
        images :=
          match nbImages with
          | some l => some (Value.strList l)
          | none => body.images
        rest := body.rest }

/-! ### Paths and the safe join (`safeJoinInTours`, lines 45-50) -/

/-- Node `path.basename` (posix): the last non-empty `/`-separated component
of the string, after trimming trailing separators; empty when none exists.
Implemented as a character fold carrying the last completed non-empty
component and the component currently being read. -/
def basename (s : String) : String :=
  let r := s.data.foldl
    (fun (acc : List Char × List Char) c =>
      if c = '/' then (if acc.2 = [] then acc.1 else acc.2, [])
      else (acc.1, acc.2 ++ [c]))
    ([], [])
  if r.2 = [] then String.mk r.1 else String.mk r.2

/-- `TOURS_DIR = path.join(process.cwd(), 'public', 'img', 'tours')`
(line 45), as components relative to an abstract working directory. -/
def toursDir (cwd : List String) : List String :=
  cwd ++ ["public", "img", "tours"]

/-- Node `path.join(dir, name)` for a normalized directory and a single
component (no separator): join then normalize, so `""` and `"."` leave the
directory unchanged and `".."` moves to its parent. -/
def joinOne (dir : List String) (name : String) : List String :=
  if name = "" then dir
  else if name = "." then dir
  else if name = ".." then dir.dropLast
  else dir ++ [name]

/-- `safeJoinInTours` (lines 49-50):
`path.join(TOURS_DIR, path.basename(filename || ''))`. (For a string,
`filename || ''` only replaces the empty string by itself, so it is the
identity here.) -/
def safeJoinInTours (cwd : List String) (filename : String) : List String :=
  joinOne (toursDir cwd) (basename filename)

/-- Whether a path lies strictly inside the tours directory: the directory
is a proper prefix of the path. -/
def insideToursDir (cwd : List String) (p : List String) : Bool :=
  (toursDir cwd).isPrefixOf p && Nat.blt (toursDir cwd).length p.length

/-! ### File deletion (`safeUnlink`, lines 64-77) -/

/-- The diagnostics object `safeUnlink` resolves with: `{ ok, skipped }`
(`skipped` absent in the source is modelled as `false`). -/
structure UnlinkResult where
  ok : Bool
  skipped : Bool
deriving DecidableEq

/-- `safeUnlink` (lines 64-77) over an explicit image store `fs` (the paths
currently present). `failing` is the set of paths whose `fsp.unlink` raises
(permission, I/O, ...): the handler catches, logs and swallows the error.
Returns the result object together with the store afterwards. Empty paths
are skipped (`if (!fullPath)`), as are paths whose `fileExists` check fails. -/
def safeUnlink (failing : List (List String)) (fs : List (List String))
    (fullPath : List String) : UnlinkResult × List (List String) :=
  if fullPath = [] then (⟨true, true⟩, fs)
  else if fs.contains fullPath = false then (⟨true, true⟩, fs)
  else if failing.contains fullPath then (⟨false, false⟩, fs)
  else (⟨true, false⟩, fs.erase fullPath)

/-- `Promise.allSettled(toDelete.map((absPath) => safeUnlink(absPath)))`
(line 245): every deletion is attempted, every outcome is collected, and no
failure short-circuits the remaining attempts. The store is threaded through
the attempts. -/
def runCleanup (failing : List (List String)) :
    List (List String) → List (List String) →
    List UnlinkResult × List (List String)
  | fs, [] => ([], fs)
  | fs, p :: ps =>
    let r := safeUnlink failing fs p
    let rest := runCleanup failing r.2 ps
    (r.1 :: rest.1, rest.2)

/-! ### The update handler (`updateTour`, lines 195-255) -/

/-- The image fields of a tour record (the `before` snapshot is loaded with
`.select('imageCover images')`, line 197). -/
structure TourRec where
  imageCover : String
  images : List String
deriving DecidableEq

/-- The update payload as `updateTour` observes it: `some` models the field
being present on `req.body` (`Object.prototype.hasOwnProperty`, lines
222 and 228). Other body fields never influence the image logic. -/
structure Payload where
  imageCover : Option String
  images : Option (List String)
deriving DecidableEq

/-- `Tour.findByIdAndUpdate` field semantics: a field present on the payload
replaces the stored value, an absent field leaves it unchanged. -/
def applyPayload (t : TourRec) (p : Payload) : TourRec :=
  { imageCover := p.imageCover.getD t.imageCover
    images := p.images.getD t.images }

/-- The filenames pushed onto `toDelete` (lines 220-238): the old cover when
the payload carries `imageCover`, the old cover is truthy and differs from
the updated cover; and every truthy old gallery name the updated gallery no
longer contains, when the payload carries `images`. (The source wraps each
name in `safeJoinInTours` as it pushes; `runUpdateTour` applies that map.
The `Array.isArray(before.images) && before.images.length` guard is
equivalent to filtering the, possibly empty, list.) -/
def toDeleteNames (p : Payload) (before updated : TourRec) : List String :=
  (if p.imageCover.isSome ∧ before.imageCover ≠ "" ∧
      before.imageCover ≠ updated.imageCover
   then [before.imageCover] else [])
  ++ (if p.images.isSome
      then before.images.filter
        (fun n => !(n == "") && !(updated.images.contains n))
      else [])

/-- Filenames referenced by a record: its cover plus its gallery. -/
def referenced (t : TourRec) : List String :=
  t.imageCover :: t.images

/-- How a run of `updateTour` ends. -/
inductive Outcome
  | notFound
  | updateFailed
  | ok (updated : TourRec)
deriving DecidableEq

/-- The HTTP status each outcome surfaces as: `next(new AppError(..., 404))`
(line 198), `next(new AppError(..., 500))` (line 209), `res.status(200)`
(line 249). -/
def statusCode : Outcome → Nat
  | Outcome.notFound => 404
  | Outcome.updateFailed => 500
  | Outcome.ok _ => 200

/-- A run of `updateTour` together with its observable effects. -/
structure RunResult where
  outcome : Outcome
  wroteStore : Bool
  deletions : List String
  results : List UnlinkResult
  fsAfter : List (List String)
deriving DecidableEq

/-- `updateTour` (lines 195-255): load the `before` snapshot (404 when
absent, line 198); issue `findByIdAndUpdate` (`storeAccepts` models whether
the store accepts the write; on success the updated record applies the
payload over the snapshot; on rejection the handler aborts with a 500 and
nothing is deleted, line 209); compute `toDelete`; run the cleanup; respond
with the updated record. (When `toDelete` is empty the source skips the
`Promise.allSettled` call, which `runCleanup` renders as a no-op.) -/
def runUpdateTour (cwd : List String) (p : Payload) (before? : Option TourRec)
    (storeAccepts : Bool) (failing : List (List String))
    (fs : List (List String)) : RunResult :=
  match before? with
  | none => ⟨Outcome.notFound, false, [], [], fs⟩
  | some before =>
    if storeAccepts then
      let updated := applyPayload before p
      let names := toDeleteNames p before updated
      let cleaned := runCleanup failing fs (names.map (safeJoinInTours cwd))
      ⟨Outcome.ok updated, true, names, cleaned.1, cleaned.2⟩
    else ⟨Outcome.updateFailed, true, [], [], fs⟩

/-! ### Concrete fixtures used by witnesses and counterexamples -/

/-- A client body that also sends text values for both image fields. -/
def bodyFx : Body :=
  ⟨some (Value.str "client-cover.png"), some (Value.str "client-images"),
   [("name", Value.str "Sea Explorer"), ("price", Value.str "497")]⟩

/-- Uploads with one cover file and one gallery file. -/
def filesFx : Files := ⟨some [()], some [()]⟩

/-- A snapshot whose cover also sits in the incoming gallery payload. -/
def cexBefore : TourRec := ⟨"a.jpeg", []⟩

/-- A payload that renames the cover while re-using the old cover's name
inside the new gallery array. -/
def cexPayload : Payload := ⟨some "b.jpeg", some ["a.jpeg"]⟩

/-- A snapshot whose cover name doubles as a gallery member. -/
def exBefore : TourRec := ⟨"x.jpeg", ["x.jpeg"]⟩

/-- A payload replacing the cover while resubmitting the same gallery. -/
def exPayload : Payload := ⟨some "y.jpeg", some ["x.jpeg"]⟩

/-- A snapshot with distinct cover and gallery names. -/
def plainBefore : TourRec := ⟨"old.jpeg", ["g1.jpeg"]⟩

/-- A payload replacing both fields with fresh names. -/
def plainPayload : Payload := ⟨some "new.jpeg", some ["h1.jpeg"]⟩

/-! ### Helper lemmas -/

theorem string_append_left_cancel {p a b : String} (h : p ++ a = p ++ b) :
    a = b := by
  apply String.ext
  have h2 : (p ++ a).data = (p ++ b).data := by rw [h]
  simpa [String.data_append] using h2

theorem string_append_assoc (a b c : String) :
    a ++ b ++ c = a ++ (b ++ c) := by
  apply String.ext
  simp [String.data_append]

theorem coverName_decomp (id : String) (now : Nat) :
    coverName id now = nameStem id now ++ "cover.jpeg" := by
  have h : ("-cover.jpeg" : String) = "-" ++ "cover.jpeg" := by decide
  show ("tour-" ++ id ++ "-" ++ toString now) ++ "-cover.jpeg"
      = (("tour-" ++ id ++ "-" ++ toString now) ++ "-") ++ "cover.jpeg"
  rw [h]
  exact (string_append_assoc _ _ _).symm

theorem galleryName_decomp (id : String) (now k : Nat) :
    galleryName id now k = nameStem id now ++ (toString k ++ ".jpeg") := by
  show (("tour-" ++ id ++ "-" ++ toString now ++ "-") ++ toString k) ++ ".jpeg"
      = ("tour-" ++ id ++ "-" ++ toString now ++ "-") ++ (toString k ++ ".jpeg")
  exact string_append_assoc _ _ _

theorem nameStem_append_ne (id : String) (now : Nat) {a b : String}
    (h : a ≠ b) : nameStem id now ++ a ≠ nameStem id now ++ b :=
  fun hc => h (string_append_left_cancel hc)

theorem coverName_ne_galleryName (id : String) (now k : Nat)
    (h : ("cover.jpeg" : String) ≠ toString k ++ ".jpeg") :
    coverName id now ≠ galleryName id now k := by
  rw [coverName_decomp, galleryName_decomp]
  exact nameStem_append_ne id now h

theorem galleryName_ne (id : String) (now j k : Nat)
    (h : toString j ++ ".jpeg" ≠ toString k ++ ".jpeg") :
    galleryName id now j ≠ galleryName id now k := by
  rw [galleryName_decomp, galleryName_decomp]
  exact nameStem_append_ne id now h

/-! ### Claims C6 and C4: missing record and rejected write -/

/-- Claim C6: when no record with the given id exists, `updateTour` fails
with a 404 not-found error and has no side effects — the store write is
never issued, nothing is marked for deletion, no deletion is attempted, and
the image store is unchanged. -/
theorem updateTour_notFound (cwd : List String) (p : Payload)
    (storeAccepts : Bool) (failing fs : List (List String)) :
    runUpdateTour cwd p none storeAccepts failing fs
        = ⟨Outcome.notFound, false, [], [], fs⟩
      ∧ statusCode Outcome.notFound = 404 :=
  ⟨rfl, rfl⟩

/-- Claim C4: when the record-store update fails, `updateTour` aborts with a
500 error and issues zero deletion calls — nothing is marked, no unlink is
attempted, and every file present in the image store before the call is
still present after it. -/
theorem updateTour_storeFail (cwd : List String) (p : Payload)
    (before : TourRec) (failing fs : List (List String)) :
    runUpdateTour cwd p (some before) false failing fs
        = ⟨Outcome.updateFailed, true, [], [], fs⟩
      ∧ statusCode Outcome.updateFailed = 500 :=
  ⟨rfl, rfl⟩

/-! ### Claim C7: safeJoinInTours and path traversal -/

/-- Claim C7 (refuted — code bug): `path.basename('..')` is `'..'`, so
`safeJoinInTours('..')` resolves to the parent of the tours directory
(`<cwd>/public/img`), escaping it; an ordinary filename stays inside. -/
theorem safeJoinInTours_dotdot_escapes :
    safeJoinInTours ["srv", "app"] ".." = ["srv", "app", "public", "img"]
    ∧ insideToursDir ["srv", "app"] (safeJoinInTours ["srv", "app"] "..")
        = false
    ∧ insideToursDir ["srv", "app"]
        (safeJoinInTours ["srv", "app"] "../../etc/evil.jpeg") = true
    ∧ insideToursDir ["srv", "app"]
        (safeJoinInTours ["srv", "app"] "tour-1-100-cover.jpeg") = true := by
  decide

/-! ### Claim C1: gallery array order under concurrency -/

/-- Claim C1 (refuted — code bug): with two gallery uploads whose transcodes
complete in reverse order (completion order `[1, 0]`, a permutation of the
upload indices), the array attached to the payload is
`["tour-9-100-2.jpeg", "tour-9-100-1.jpeg"]` — completion order — so its
element at position 0 is not the filename carrying index 1, contradicting
the claim that the array order matches the upload order regardless of
completion order. -/
theorem resize_gallery_completion_order :
    ([1, 0].Perm (List.range 2))
    ∧ (resizeTourImages "9" 100 ⟨none, none, []⟩
        (some ⟨none, some [(), ()]⟩) [1, 0]).images
        = some (Value.strList ["tour-9-100-2.jpeg", "tour-9-100-1.jpeg"])
    ∧ ("tour-9-100-2.jpeg" : String) ≠ galleryName "9" 100 1 := by
  decide

/-! ### More helper lemmas -/

theorem mem_toDeleteNames_iff (p : Payload) (before updated : TourRec)
    (n : String) :
    n ∈ toDeleteNames p before updated
      ↔ (p.imageCover.isSome ∧ before.imageCover ≠ "" ∧
          before.imageCover ≠ updated.imageCover ∧ n = before.imageCover)
        ∨ (p.images.isSome ∧ n ∈ before.images ∧ n ≠ "" ∧
            n ∉ updated.images) := by
  by_cases hc : p.imageCover.isSome ∧ before.imageCover ≠ "" ∧
      before.imageCover ≠ updated.imageCover
  <;> by_cases hi : p.images.isSome
  <;> simp [toDeleteNames, hc, hi, List.mem_filter, and_assoc]
  <;> tauto

theorem runCleanup_length (failing : List (List String)) :
    ∀ (fs ps : List (List String)),
      (runCleanup failing fs ps).1.length = ps.length
  | _, [] => rfl
  | fs, p :: ps => by
    simp only [runCleanup, List.length_cons]
    exact congrArg (· + 1) (runCleanup_length failing _ ps)

theorem runUpdateTour_outcome (cwd : List String) (p : Payload)
    (before? : Option TourRec) (sA : Bool) (failing fs : List (List String)) :
    (runUpdateTour cwd p before? sA failing fs).outcome
      = match before? with
        | none => Outcome.notFound
        | some b =>
          if sA then Outcome.ok (applyPayload b p) else Outcome.updateFailed := by
  cases before? <;> cases sA <;> rfl

theorem pairwise_ne_two {a b : String} (h : a ≠ b) :
    ([a, b] : List String).Pairwise (· ≠ ·) := by
  simp [List.pairwise_cons, h]

theorem pairwise_ne_three {a b c : String} (hab : a ≠ b) (hac : a ≠ c)
    (hbc : b ≠ c) : ([a, b, c] : List String).Pairwise (· ≠ ·) := by
  simp [List.pairwise_cons, hab, hac, hbc]

theorem pairwise_ne_four {a b c d : String} (hab : a ≠ b) (hac : a ≠ c)
    (had : a ≠ d) (hbc : b ≠ c) (hbd : b ≠ d) (hcd : c ≠ d) :
    ([a, b, c, d] : List String).Pairwise (· ≠ ·) := by
  simp [List.pairwise_cons, hab, hac, had, hbc, hbd, hcd]

/-! ### Claim C3: which files are marked for deletion -/

/-- Claim C3 (amended): a filename is marked for deletion iff (a) the
payload carries the cover field, the before-cover is non-empty and differs
from the after-cover — then exactly the before-cover is marked — or (b) the
payload carries the gallery field and a non-empty before-gallery filename is
absent from the after-gallery. A filename present in both galleries is never
marked by the gallery rule (b): when such a filename is marked at all, it is
via (a), as the non-empty before-cover of a changing cover. -/
theorem toDeleteNames_spec (p : Payload) (before updated : TourRec)
    (n : String) :
    (n ∈ toDeleteNames p before updated
      ↔ (p.imageCover.isSome ∧ before.imageCover ≠ "" ∧
          before.imageCover ≠ updated.imageCover ∧ n = before.imageCover)
        ∨ (p.images.isSome ∧ n ∈ before.images ∧ n ≠ "" ∧
            n ∉ updated.images))
    ∧ (n ∈ before.images → n ∈ updated.images →
        n ∈ toDeleteNames p before updated →
        p.imageCover.isSome ∧ before.imageCover ≠ "" ∧
        before.imageCover ≠ updated.imageCover ∧ n = before.imageCover) := by
  refine ⟨mem_toDeleteNames_iff p before updated n, fun hb hu hm => ?_⟩
  rcases (mem_toDeleteNames_iff p before updated n).mp hm with h | h
  · exact h
  · exact absurd hu h.2.2.2

/-- Claim C3 counterexample: a filename present in both the before- and the
after-gallery is nevertheless marked, because it is also the departing
cover — refuting the claim's final clause as stated. -/
theorem toDeleteNames_both_galleries_cex :
    "x.jpeg" ∈ exBefore.images
    ∧ "x.jpeg" ∈ (applyPayload exBefore exPayload).images
    ∧ "x.jpeg" ∈ toDeleteNames exPayload exBefore
        (applyPayload exBefore exPayload) := by
  decide

/-- Witness for `toDeleteNames_spec` at a concrete input. -/
theorem toDeleteNames_spec_witness :
    ("y.jpeg" ∈ plainBefore.images ∧
     "y.jpeg" ∈ (applyPayload plainBefore plainPayload).images ∧
     "y.jpeg" ∈ toDeleteNames plainPayload plainBefore
        (applyPayload plainBefore plainPayload)
      → plainPayload.imageCover.isSome ∧ plainBefore.imageCover ≠ "" ∧
        plainBefore.imageCover
          ≠ (applyPayload plainBefore plainPayload).imageCover ∧
        "y.jpeg" = plainBefore.imageCover)
    ∧ ("old.jpeg" ∈ toDeleteNames plainPayload plainBefore
          (applyPayload plainBefore plainPayload)
        ↔ (plainPayload.imageCover.isSome ∧ plainBefore.imageCover ≠ "" ∧
            plainBefore.imageCover
              ≠ (applyPayload plainBefore plainPayload).imageCover ∧
            "old.jpeg" = plainBefore.imageCover)
          ∨ (plainPayload.images.isSome ∧ "old.jpeg" ∈ plainBefore.images ∧
              "old.jpeg" ≠ "" ∧
              "old.jpeg" ∉ (applyPayload plainBefore plainPayload).images)) :=
  ⟨fun h => (toDeleteNames_spec plainPayload plainBefore
      (applyPayload plainBefore plainPayload) "y.jpeg").2 h.1 h.2.1 h.2.2,
   (toDeleteNames_spec plainPayload plainBefore
      (applyPayload plainBefore plainPayload) "old.jpeg").1⟩

/-! ### Claim C2: referenced files survive the cleanup -/

/-- Claim C2 counterexample: a successful update whose payload renames the
cover while re-using the old cover's filename inside the new gallery array
deletes that file even though the updated record still references it in its
gallery — the file is marked, and it is removed from the image store. -/
theorem updateTour_deletes_referenced_cex :
    (runUpdateTour [] cexPayload (some cexBefore) true []
        [["public", "img", "tours", "a.jpeg"]]).outcome
      = Outcome.ok ⟨"b.jpeg", ["a.jpeg"]⟩
    ∧ "a.jpeg" ∈ (runUpdateTour [] cexPayload (some cexBefore) true []
        [["public", "img", "tours", "a.jpeg"]]).deletions
    ∧ "a.jpeg" ∈ referenced ⟨"b.jpeg", ["a.jpeg"]⟩
    ∧ safeJoinInTours [] "a.jpeg"
        ∉ (runUpdateTour [] cexPayload (some cexBefore) true []
            [["public", "img", "tours", "a.jpeg"]]).fsAfter := by
  decide

/-- Claim C2 (amended): on every successful run of `updateTour`, provided
the before-cover does not appear in the updated gallery and the updated
cover does not appear in the before-gallery (true in particular whenever the
new names are freshly generated), no filename marked for deletion is
referenced by the updated record. -/
theorem updateTour_keeps_referenced (cwd : List String) (p : Payload)
    (before : TourRec) (failing fs : List (List String)) (n : String)
    (h1 : before.imageCover ∉ (applyPayload before p).images)
    (h2 : (applyPayload before p).imageCover ∉ before.images)
    (hn : n ∈ (runUpdateTour cwd p (some before) true failing fs).deletions) :
    n ∉ referenced (applyPayload before p) := by
  have hd : (runUpdateTour cwd p (some before) true failing fs).deletions
      = toDeleteNames p before (applyPayload before p) := rfl
  rw [hd] at hn
  rcases (mem_toDeleteNames_iff p before (applyPayload before p) n).mp hn with
    ⟨_, _, hnec, heq⟩ | ⟨_, hmem, _, hnotin⟩
  · subst heq
    simp only [referenced, List.mem_cons, not_or]
    exact ⟨hnec, h1⟩
  · simp only [referenced, List.mem_cons, not_or]
    exact ⟨fun hcontra => h2 (hcontra ▸ hmem), hnotin⟩

/-- Witness for `updateTour_keeps_referenced` at a concrete input. -/
theorem updateTour_keeps_referenced_witness :
    (plainBefore.imageCover ∉ (applyPayload plainBefore plainPayload).images
      ∧ (applyPayload plainBefore plainPayload).imageCover
          ∉ plainBefore.images
      ∧ "old.jpeg" ∈ (runUpdateTour [] plainPayload (some plainBefore)
          true [] []).deletions)
    ∧ "old.jpeg" ∉ referenced (applyPayload plainBefore plainPayload) :=
  ⟨⟨by decide, by decide, by decide⟩,
   updateTour_keeps_referenced [] plainPayload plainBefore [] [] "old.jpeg"
     (by decide) (by decide) (by decide)⟩

/-! ### Claim C5: best-effort cleanup -/

/-- Claim C5: deleting a missing file is a success (and leaves the store
untouched); the handler's outcome is independent of which deletions fail
(failures are swallowed, never surfacing as a failure of the request); and
every marked file is attempted with every outcome collected — the cleanup
returns one result per marked file, no matter which attempts fail. -/
theorem cleanup_best_effort (failing fs : List (List String))
    (q : List String) (ps : List (List String)) (cwd : List String)
    (pay : Payload) (before? : Option TourRec) (sA : Bool)
    (failing2 fs2 : List (List String)) (before : TourRec)
    (hmiss : q ∉ fs) :
    safeUnlink failing fs q = (⟨true, true⟩, fs)
    ∧ (runCleanup failing fs ps).1.length = ps.length
    ∧ (runUpdateTour cwd pay before? sA failing fs).outcome
        = (runUpdateTour cwd pay before? sA failing2 fs2).outcome
    ∧ (runUpdateTour cwd pay (some before) true failing fs).results.length
        = (runUpdateTour cwd pay (some before) true failing fs).deletions.length := by
  refine ⟨?_, runCleanup_length failing fs ps, ?_, ?_⟩
  · have hc : fs.contains q = false := by simpa using hmiss
    unfold safeUnlink
    rw [hc]
    by_cases hq : q = [] <;> simp [hq]
  · rw [runUpdateTour_outcome, runUpdateTour_outcome]
  · show (runCleanup failing fs
        ((toDeleteNames pay before (applyPayload before pay)).map
          (safeJoinInTours cwd))).1.length
      = (toDeleteNames pay before (applyPayload before pay)).length
    rw [runCleanup_length, List.length_map]

/-- Witness for `cleanup_best_effort` at a concrete input. -/
theorem cleanup_best_effort_witness :
    ((["a"] : List String) ∉ ([] : List (List String)))
    ∧ (safeUnlink [] [] ["a"] = (⟨true, true⟩, [])
      ∧ (runCleanup [] [] [["b"]]).1.length = [["b"]].length
      ∧ (runUpdateTour [] plainPayload (some plainBefore) true [] []).outcome
          = (runUpdateTour [] plainPayload (some plainBefore) true
              [["x"]] [["y"]]).outcome
      ∧ (runUpdateTour [] plainPayload (some plainBefore) true [] []).results.length
          = (runUpdateTour [] plainPayload (some plainBefore) true [] []).deletions.length) :=
  ⟨by decide,
   cleanup_best_effort [] [] ["a"] [["b"]] [] plainPayload
     (some plainBefore) true [["x"]] [["y"]] plainBefore (by decide)⟩

/-! ### Claim C8: filename templates and intra-request uniqueness -/

/-- Claim C8: the cover filename is exactly
`tour-<id>-<timestamp>-cover.jpeg`, the k-th gallery filename (1-based) is
exactly `tour-<id>-<timestamp>-<k>.jpeg`, all built from the single
timestamp `now` captured once per request, and — for the up-to-3 gallery
files the upload acceptor admits — all filenames generated within one
request are pairwise distinct. -/
theorem resize_naming (id : String) (now : Nat) (n k : Nat)
    (hn1 : 1 ≤ n) (hn3 : n ≤ 3) (_hk1 : 1 ≤ k) (_hkn : k ≤ n) :
    coverName id now = "tour-" ++ id ++ "-" ++ toString now ++ "-cover.jpeg"
    ∧ galleryName id now k
        = "tour-" ++ id ++ "-" ++ toString now ++ "-" ++ toString k
            ++ ".jpeg"
    ∧ (coverName id now :: galleryNamesInOrder id now n).Pairwise (· ≠ ·) := by
  refine ⟨rfl, rfl, ?_⟩
  interval_cases n
  · have e : galleryNamesInOrder id now 1 = [galleryName id now 1] := rfl
    rw [e]
    exact pairwise_ne_two (coverName_ne_galleryName id now 1 (by decide))
  · have e : galleryNamesInOrder id now 2
        = [galleryName id now 1, galleryName id now 2] := rfl
    rw [e]
    exact pairwise_ne_three
      (coverName_ne_galleryName id now 1 (by decide))
      (coverName_ne_galleryName id now 2 (by decide))
      (galleryName_ne id now 1 2 (by decide))
  · have e : galleryNamesInOrder id now 3
        = [galleryName id now 1, galleryName id now 2, galleryName id now 3]
        := rfl
    rw [e]
    exact pairwise_ne_four
      (coverName_ne_galleryName id now 1 (by decide))
      (coverName_ne_galleryName id now 2 (by decide))
      (coverName_ne_galleryName id now 3 (by decide))
      (galleryName_ne id now 1 2 (by decide))
      (galleryName_ne id now 1 3 (by decide))
      (galleryName_ne id now 2 3 (by decide))

/-- Witness for `resize_naming` at a concrete input. -/
theorem resize_naming_witness :
    (1 ≤ 2 ∧ 2 ≤ 3 ∧ 1 ≤ 1 ∧ 1 ≤ 2)
    ∧ (coverName "5c8" 42
        = "tour-" ++ "5c8" ++ "-" ++ toString 42 ++ "-cover.jpeg"
      ∧ galleryName "5c8" 42 1
          = "tour-" ++ "5c8" ++ "-" ++ toString 42 ++ "-" ++ toString 1
              ++ ".jpeg"
      ∧ (coverName "5c8" 42 :: galleryNamesInOrder "5c8" 42 2).Pairwise
          (· ≠ ·)) :=
  ⟨by decide,
   resize_naming "5c8" 42 2 1 (by decide) (by decide) (by decide) (by decide)⟩

/-! ### Claim C9: pass-through when nothing was uploaded -/

/-- Claim C9: when no file was uploaded (request files absent, or both
upload fields absent or empty), `resizeTourImages` passes the body through
unchanged — every client field keeps its value, and the cover/gallery fields
remain present or absent exactly as the client sent them. -/
theorem resize_noUploads_id (id : String) (now : Nat) (body : Body)
    (files : Option Files) (order : List Nat)
    (h : noUploads files = true) :
    resizeTourImages id now body files order = body := by
  cases files with
  | none => rfl
  | some f =>
    obtain ⟨fc, fi⟩ := f
    cases fc with
    | none =>
      cases fi with
      | none => rfl
      | some li =>
        cases li with
        | nil => rfl
        | cons a t => simp [noUploads] at h
    | some lc =>
      cases lc with
      | nil =>
        cases fi with
        | none => rfl
        | some li =>
          cases li with
          | nil => rfl
          | cons a t => simp [noUploads] at h
      | cons a t => simp [noUploads] at h

/-- Witness for `resize_noUploads_id` at a concrete input. -/
theorem resize_noUploads_id_witness :
    noUploads (some ⟨some [], none⟩) = true
    ∧ resizeTourImages "9" 100 bodyFx (some ⟨some [], none⟩) [] = bodyFx :=
  ⟨by decide,
   resize_noUploads_id "9" 100 bodyFx (some ⟨some [], none⟩) [] (by decide)⟩

/-! ### Claim C10: generated names take precedence in the merge -/

/-- Claim C10: when files were uploaded, the merged payload keeps every
other client field unchanged, while for each field with an upload the
freshly generated filename(s) replace whatever value the client sent under
that field. -/
theorem resize_merge_precedence (id : String) (now : Nat) (body : Body)
    (f : Files) (order : List Nat) (c g : Unit) (cs gs : List Unit) :
    (resizeTourImages id now body (some f) order).rest = body.rest
    ∧ (f.imageCover = some (c :: cs) →
        (resizeTourImages id now body (some f) order).imageCover
          = some (Value.str (coverName id now)))
    ∧ (f.images = some (g :: gs) →
        (resizeTourImages id now body (some f) order).images
          = some (Value.strList (galleryPushed id now order))) := by
  obtain ⟨fc, fi⟩ := f
  cases fc with
  | none =>
    cases fi with
    | none => exact ⟨rfl, fun h => absurd h (by simp), fun h => absurd h (by simp)⟩
    | some li =>
      cases li with
      | nil => exact ⟨rfl, fun h => absurd h (by simp), fun h => absurd h (by simp)⟩
      | cons g0 gs0 => exact ⟨rfl, fun h => absurd h (by simp), fun h => rfl⟩
  | some lc =>
    cases lc with
    | nil =>
      cases fi with
      | none => exact ⟨rfl, fun h => absurd h (by simp), fun h => absurd h (by simp)⟩
      | some li =>
        cases li with
        | nil => exact ⟨rfl, fun h => absurd h (by simp), fun h => absurd h (by simp)⟩
        | cons g0 gs0 => exact ⟨rfl, fun h => absurd h (by simp), fun h => rfl⟩
    | cons c0 cs0 =>
      cases fi with
      | none => exact ⟨rfl, fun h => rfl, fun h => absurd h (by simp)⟩
      | some li =>
        cases li with
        | nil => exact ⟨rfl, fun h => rfl, fun h => absurd h (by simp)⟩
        | cons g0 gs0 => exact ⟨rfl, fun h => rfl, fun h => rfl⟩

/-- Witness for `resize_merge_precedence` at a concrete input: the client
sent text values under both image fields, and both are overridden by the
generated names while the other fields survive. -/
theorem resize_merge_precedence_witness :
    (resizeTourImages "9" 100 bodyFx (some filesFx) [0]).rest = bodyFx.rest
    ∧ (resizeTourImages "9" 100 bodyFx (some filesFx) [0]).imageCover
        = some (Value.str (coverName "9" 100))
    ∧ (resizeTourImages "9" 100 bodyFx (some filesFx) [0]).images
        = some (Value.strList (galleryPushed "9" 100 [0])) :=
  ⟨(resize_merge_precedence "9" 100 bodyFx filesFx [0] () () [] []).1,
   (resize_merge_precedence "9" 100 bodyFx filesFx [0] () () [] []).2.1 rfl,
   (resize_merge_precedence "9" 100 bodyFx filesFx [0] () () [] []).2.2 rfl⟩

end Trips
